import Mathlib

/-!
# FontWatchRunner (src/core/fontwatchrunner.js) — shallow embedding

The detection state machine of `webfont.FontWatchRunner`: two measurement
rulers, a polling loop comparing current measurements against recorded
baselines, a 5000 ms timeout policy, and the webkit-fallback-bug
compensation branch.

Modelling choices:
* A measurement (`getSize`) yields `Option Size`: `none` stands for a null
  result (no usable measurement), `some` for a `{width, height}` object.
* The external world (clock, scheduler, measurement oracle) is an `Env`
  giving, for tick `n` of the polling loop, the time `getTime` returns and
  the two sizes the rulers report; plus the time and the two fallback
  measurements observed during `start`.
* Side effects (ruler removal, callback invocation, scheduling via
  `asyncCall`) are events; each JS method is a Lean function returning the
  list of events it emits.  `true` in `Event.callback` stands for the
  `activeCallback_`, `false` for the `inactiveCallback_`.
* JS numbers for times are embedded as `Int` (only subtraction and
  comparison are performed on them).
-/

namespace WebFont

/-- A measured `{width: number, height: number}` object. -/
structure Size where
  width : Int
  height : Int
deriving DecidableEq, Repr

/-- Observable effects of the runner: ruler font assignment, ruler removal,
terminal callback invocation (with its `(fontFamily, fontDescription)`
arguments; `active = true` is the `activeCallback_`), and a scheduler
request `asyncCall_(fn, delayMs)`. -/
inductive Event where
  | setFontA (family description : String)
  | setFontB (family description : String)
  | removeRulerA
  | removeRulerB
  | callback (active : Bool) (fontFamily fontDescription : String)
  | schedule (delayMs : Nat)
deriving DecidableEq, Repr

/-- The fields of a `webfont.FontWatchRunner` instance after `start()` ran
(the callbacks themselves are represented by the `Bool` in
`Event.callback`; DOM helpers and the font sizer live in the environment). -/
structure Runner where
  fontFamily_ : String
  fontDescription_ : String
  hasWebkitFallbackBug_ : Bool
  originalSizeA_ : Option Size
  originalSizeB_ : Option Size
  webkitFallbackSizeA_ : Option Size
  webkitFallbackSizeB_ : Option Size
  started_ : Int
deriving DecidableEq, Repr

/-- `webfont.FontWatchRunner.DEFAULT_FONTS_A`. -/
def DEFAULT_FONTS_A : String := "arial,'URW Gothic L',sans-serif"

/-- `webfont.FontWatchRunner.DEFAULT_FONTS_B`. -/
def DEFAULT_FONTS_B : String := "Georgia,'Century Schoolbook L',serif"

/-- `webfont.FontWatchRunner.DEFAULT_TEST_STRING`. -/
def DEFAULT_TEST_STRING : String := "BESbswy"

/-- `sizeEquals_(a, b)`: `!!a && !!b && a.width === b.width && a.height === b.height`.
A `{width, height}` object is always truthy in JS, so `!!a` is exactly
"`a` is not null". -/
def sizeEquals_ : Option Size → Option Size → Bool
  | some a, some b => a.width == b.width && a.height == b.height
  | _, _ => false

/-- `hasTimedOut_()`: `this.getTime_() - this.started_ >= 5000`, with the
current `getTime_()` result and `started_` passed explicitly. -/
def hasTimedOut_ (now started : Int) : Bool :=
  decide (5000 ≤ now - started)

/-- `finish_(callback)`: removes ruler A, removes ruler B, then invokes the
given callback with `(fontFamily_, fontDescription_)`. -/
def finish_ (r : Runner) (active : Bool) : List Event :=
  [Event.removeRulerA, Event.removeRulerB,
   Event.callback active r.fontFamily_ r.fontDescription_]

/-- `asyncCheck_()`: requests one deferred `check_` via
`asyncCall_(..., 25)`. -/
def asyncCheck_ : List Event :=
  [Event.schedule 25]

/-- `check_()`: one tick of the polling loop, given the two sizes just read
from the rulers and the time `hasTimedOut_` observes on this tick.  A
line-by-line transcription of the branch structure of the source. -/
def check_ (r : Runner) (sizeA sizeB : Option Size) (now : Int) : List Event :=
  if r.hasWebkitFallbackBug_ then
    if r.webkitFallbackSizeA_.isSome && r.webkitFallbackSizeB_.isSome then
      if hasTimedOut_ now r.started_ then
        if sizeEquals_ sizeA r.webkitFallbackSizeA_ &&
            sizeEquals_ sizeB r.webkitFallbackSizeB_ then
          finish_ r true
        else
          finish_ r false
      else
        if sizeEquals_ sizeA r.webkitFallbackSizeA_ &&
            sizeEquals_ sizeB r.webkitFallbackSizeB_ then
          asyncCheck_
        else
          if sizeEquals_ sizeA r.originalSizeA_ &&
              sizeEquals_ sizeB r.originalSizeB_ then
            finish_ r false
          else
            finish_ r true
    else
      asyncCheck_
  else
    if hasTimedOut_ now r.started_ then
      finish_ r false
    else
      if sizeEquals_ sizeA r.originalSizeA_ &&
          sizeEquals_ sizeB r.originalSizeB_ then
        asyncCheck_
      else
        finish_ r true

/-- The constructor arguments of the runner that matter to the state
machine, together with the baselines measured at construction
(`originalSizeA_`/`originalSizeB_` are captured from the fallback-only
configuration before `start` applies the target font). -/
structure Ctor where
  fontFamily : String
  fontDescription : String
  hasWebkitFallbackBug : Bool
  originalSizeA : Option Size
  originalSizeB : Option Size
deriving DecidableEq, Repr

/-- The external collaborators of one run: the clock value read in
`start()` (`startTime`), the two measurements `start()` takes right after
assigning the target font (used only when the bug flag is set), and for
each tick `n` of the polling loop the two ruler measurements and the clock
value read by that `check_` invocation.  Tick `0` is the synchronous
`check_()` call at the end of `start()`. -/
structure Env where
  startTime : Int
  fallbackMeasureA : Option Size
  fallbackMeasureB : Option Size
  time : Nat → Int
  sizeA : Nat → Option Size
  sizeB : Nat → Option Size

/-- The runner state right after `start()`: `started_` is set to the
current time, and the fallback snapshots are taken if and only if the
webkit fallback bug flag is set (otherwise they stay null). -/
def start (c : Ctor) (e : Env) : Runner :=
  { fontFamily_ := c.fontFamily
    fontDescription_ := c.fontDescription
    hasWebkitFallbackBug_ := c.hasWebkitFallbackBug
    originalSizeA_ := c.originalSizeA
    originalSizeB_ := c.originalSizeB
    webkitFallbackSizeA_ := if c.hasWebkitFallbackBug then e.fallbackMeasureA else none
    webkitFallbackSizeB_ := if c.hasWebkitFallbackBug then e.fallbackMeasureB else none
    started_ := e.startTime }

/-- The events `check_` would emit at tick `n`, were it to run. -/
def tickEvents (c : Ctor) (e : Env) (n : Nat) : List Event :=
  check_ (start c e) (e.sizeA n) (e.sizeB n) (e.time n)

/-- Whether tick `n` actually executes: tick `0` is called synchronously
from `start()`; tick `n+1` executes exactly when tick `n` executed and
rescheduled (emitted `asyncCheck_`).  The code keeps no finished flag and
cancels nothing: a tick runs iff every earlier tick rescheduled. -/
def tickRuns (c : Ctor) (e : Env) : Nat → Bool
  | 0 => true
  | n + 1 => tickRuns c e n && (tickEvents c e n == asyncCheck_)

/-- The events the run actually emits at tick `n` (none if the tick never
executes). -/
def runTickEvents (c : Ctor) (e : Env) (n : Nat) : List Event :=
  if tickRuns c e n then tickEvents c e n else []

/-- The synchronous event trace of `start()` itself: the two target-font
assignments (`"<family>," ++` the default stack) followed by everything the
first, synchronous `check_()` emits. -/
def startEvents (c : Ctor) (e : Env) : List Event :=
  Event.setFontA (c.fontFamily ++ "," ++ DEFAULT_FONTS_A) c.fontDescription ::
  Event.setFontB (c.fontFamily ++ "," ++ DEFAULT_FONTS_B) c.fontDescription ::
  tickEvents c e 0

/-- Is this event a terminal-callback invocation? -/
def isCallback : Event → Bool
  | Event.callback _ _ _ => true
  | _ => false

/-- Is this event an `activeCallback_` invocation? -/
def isActiveCallback : Event → Bool
  | Event.callback true _ _ => true
  | _ => false

/-- Is this event a scheduler request? -/
def isSchedule : Event → Bool
  | Event.schedule _ => true
  | _ => false

/-- How many terminal callbacks a list of events invokes. -/
def countCallbacks (l : List Event) : Nat :=
  (l.filter isCallback).length

/-- How many scheduler requests a list of events makes. -/
def countSchedules (l : List Event) : Nat :=
  (l.filter isSchedule).length

/-- How many times a list of events removes ruler A. -/
def countRemoveA (l : List Event) : Nat :=
  (l.filter fun ev => ev == Event.removeRulerA).length

/-- How many times a list of events removes ruler B. -/
def countRemoveB (l : List Event) : Nat :=
  (l.filter fun ev => ev == Event.removeRulerB).length

/-- The environment contract the spec states for the clock and the
scheduler: the clock is monotone from `start` to the first tick, and each
rescheduled tick (requested with a 25 ms delay) observes a clock value at
least 25 ms after the previous tick. -/
def ValidEnv (e : Env) : Prop :=
  e.startTime ≤ e.time 0 ∧ ∀ n, e.time n + 25 ≤ e.time (n + 1)

/-- Over a whole (possibly unending) run, no terminal callback is ever
invoked. -/
def NeverFires (c : Ctor) (e : Env) : Prop :=
  ∀ n, countCallbacks (runTickEvents c e n) = 0

/-! ## Basic facts about the transcribed methods -/

theorem finish_ne_asyncCheck (r : Runner) (b : Bool) : finish_ r b ≠ asyncCheck_ := by
  simp [finish_, asyncCheck_]

theorem countCallbacks_finish (r : Runner) (b : Bool) :
    countCallbacks (finish_ r b) = 1 := rfl

theorem countCallbacks_asyncCheck : countCallbacks asyncCheck_ = 0 := rfl

theorem countSchedules_finish (r : Runner) (b : Bool) :
    countSchedules (finish_ r b) = 0 := rfl

theorem countSchedules_asyncCheck : countSchedules asyncCheck_ = 1 := rfl

/-- Every `check_` invocation emits exactly one of the three possible
outcome traces: a reschedule, an active finish, or an inactive finish. -/
theorem check_cases (r : Runner) (sA sB : Option Size) (t : Int) :
    check_ r sA sB t = asyncCheck_ ∨ check_ r sA sB t = finish_ r true ∨
      check_ r sA sB t = finish_ r false := by
  unfold check_
  repeat' split
  all_goals simp

/-- With the bug flag set but a fallback snapshot missing (null), `check_`
always reschedules: the guard `webkitFallbackSizeA_ && webkitFallbackSizeB_`
fails and the timeout is never consulted. -/
theorem check_waits_without_fallback (r : Runner) (sA sB : Option Size) (t : Int)
    (hb : r.hasWebkitFallbackBug_ = true) (hA : r.webkitFallbackSizeA_ = none) :
    check_ r sA sB t = asyncCheck_ := by
  unfold check_
  simp [hb, hA]

/-- Once timed out, `check_` never reschedules — provided that, when the bug
flag is set, both fallback snapshots were recorded. -/
theorem check_finishes_of_timedOut (r : Runner) (sA sB : Option Size) (t : Int)
    (ht : hasTimedOut_ t r.started_ = true)
    (hfb : r.hasWebkitFallbackBug_ = true →
      r.webkitFallbackSizeA_.isSome = true ∧ r.webkitFallbackSizeB_.isSome = true) :
    check_ r sA sB t ≠ asyncCheck_ := by
  unfold check_
  cases hb : r.hasWebkitFallbackBug_ with
  | false =>
      simp only [Bool.false_eq_true, if_false, ht, if_true]
      exact finish_ne_asyncCheck r false
  | true =>
      obtain ⟨hA, hB⟩ := hfb hb
      simp only [if_true, hA, hB, Bool.and_self, ht]
      split
      · exact finish_ne_asyncCheck r true
      · exact finish_ne_asyncCheck r false

/-- `tickEvents` restated through `check_cases`. -/
theorem tickEvents_cases (c : Ctor) (e : Env) (n : Nat) :
    tickEvents c e n = asyncCheck_ ∨ tickEvents c e n = finish_ (start c e) true ∨
      tickEvents c e n = finish_ (start c e) false :=
  check_cases (start c e) (e.sizeA n) (e.sizeB n) (e.time n)

/-! ## Facts about which ticks execute -/

/-- A tick executes whenever every earlier tick rescheduled. -/
theorem tickRuns_of_async (c : Ctor) (e : Env) (n : Nat)
    (h : ∀ m, m < n → tickEvents c e m = asyncCheck_) : tickRuns c e n = true := by
  induction n with
  | zero => rfl
  | succ k ih =>
      have hk : tickRuns c e k = true := ih fun m hm => h m (Nat.lt_succ_of_lt hm)
      simp [tickRuns, hk, h k (Nat.lt_succ_self k)]

/-- Once a tick fails to execute, no later tick executes. -/
theorem tickRuns_false_mono (c : Ctor) (e : Env) (n m : Nat)
    (h : tickRuns c e n = false) (hnm : n ≤ m) : tickRuns c e m = false := by
  induction m, hnm using Nat.le_induction with
  | base => exact h
  | succ k _ ih => simp [tickRuns, ih]

/-- Once a tick does anything but reschedule, no later tick executes. -/
theorem tickRuns_false_after (c : Ctor) (e : Env) (n m : Nat)
    (h : tickEvents c e n ≠ asyncCheck_) (hnm : n < m) : tickRuns c e m = false := by
  have h1 : tickRuns c e (n + 1) = false := by
    have hne : (tickEvents c e n == asyncCheck_) = false := beq_eq_false_iff_ne.mpr h
    simp [tickRuns, hne]
  exact tickRuns_false_mono c e (n + 1) m h1 hnm

/-! ## Facts about the environment contract -/

/-- Under the clock/scheduler contract, at least 25 ms of clock time passes
per poll. -/
theorem time_lower_bound {e : Env} (hv : ValidEnv e) (n : Nat) :
    e.startTime + 25 * n ≤ e.time n := by
  induction n with
  | zero => simpa using hv.1
  | succ k ih =>
      have h := hv.2 k
      push_cast
      push_cast at ih
      omega

/-- Under the clock/scheduler contract, tick 200 (if reached) observes a
timed-out clock: at least `200 * 25 = 5000` ms have elapsed. -/
theorem timedOut_at_200 {e : Env} (hv : ValidEnv e) :
    hasTimedOut_ (e.time 200) e.startTime = true := by
  have h := time_lower_bound hv 200
  simp only [hasTimedOut_, decide_eq_true_eq]
  push_cast at h
  omega

/-! ## Concrete environments used to evaluate the model -/

/-- An environment whose clock satisfies the contract (25 ms per tick from
`startTime = 0`) and whose measurement oracle returns null (`none`) on every
`getSize` call from `start()` onward — the two fallback captures and every
poll measurement alike. -/
def envNoMeasure : Env :=
  { startTime := 0
    fallbackMeasureA := none
    fallbackMeasureB := none
    time := fun n => 25 * (n : Int) + 25
    sizeA := fun _ => none
    sizeB := fun _ => none }

/-- A bug-compensation-disabled runner with distinct construction-time
baselines for the two rulers. -/
def ctorNoBug : Ctor :=
  { fontFamily := "My Family"
    fontDescription := "n4"
    hasWebkitFallbackBug := false
    originalSizeA := some ⟨10, 5⟩
    originalSizeB := some ⟨20, 8⟩ }

/-- The same runner with the bug-compensation branch enabled. -/
def ctorBug : Ctor :=
  { ctorNoBug with hasWebkitFallbackBug := true }

theorem validEnv_envNoMeasure : ValidEnv envNoMeasure := by
  constructor
  · norm_num [envNoMeasure]
  · intro n
    simp only [envNoMeasure]
    push_cast
    omega

/-! ## C1 -/

/-- C1 (amended): under the clock/scheduler contract, whenever the
bug-compensation branch is disabled — or enabled with both fallback
snapshots actually recorded — exactly one terminal callback is invoked,
exactly once, at some tick `n`; every other tick invokes no callback, and
after tick `n` no check logic executes at all (no events, hence no poll). -/
theorem c1_exactly_one_terminal_callback (c : Ctor) (e : Env) (hv : ValidEnv e)
    (hfb : c.hasWebkitFallbackBug = true →
      e.fallbackMeasureA.isSome = true ∧ e.fallbackMeasureB.isSome = true) :
    ∃ n, countCallbacks (runTickEvents c e n) = 1 ∧
      (∀ m, m ≠ n → countCallbacks (runTickEvents c e m) = 0) ∧
      (∀ m, n < m → runTickEvents c e m = []) := by
  have hfb' : (start c e).hasWebkitFallbackBug_ = true →
      (start c e).webkitFallbackSizeA_.isSome = true ∧
      (start c e).webkitFallbackSizeB_.isSome = true := by
    intro hb
    have hb' : c.hasWebkitFallbackBug = true := hb
    simp only [start, hb', if_true]
    exact hfb hb'
  have h200 : tickEvents c e 200 ≠ asyncCheck_ :=
    check_finishes_of_timedOut (start c e) (e.sizeA 200) (e.sizeB 200) (e.time 200)
      (timedOut_at_200 hv) hfb'
  have hex : ∃ n, tickEvents c e n ≠ asyncCheck_ := ⟨200, h200⟩
  have hmin : ∀ m, m < Nat.find hex → tickEvents c e m = asyncCheck_ := fun m hm =>
    not_not.mp (Nat.find_min hex hm)
  have hrun : tickRuns c e (Nat.find hex) = true := tickRuns_of_async c e _ hmin
  have hne : tickEvents c e (Nat.find hex) ≠ asyncCheck_ := Nat.find_spec hex
  refine ⟨Nat.find hex, ?_, ?_, ?_⟩
  · rcases tickEvents_cases c e (Nat.find hex) with h | h | h
    · exact absurd h hne
    · simp [runTickEvents, hrun, h, countCallbacks_finish]
    · simp [runTickEvents, hrun, h, countCallbacks_finish]
  · intro m hm
    rcases lt_or_gt_of_ne hm with hlt | hgt
    · have hrm : tickRuns c e m = true :=
        tickRuns_of_async c e m fun k hk => hmin k (hk.trans hlt)
      simp [runTickEvents, hrm, hmin m hlt, countCallbacks_asyncCheck]
    · have : tickRuns c e m = false := tickRuns_false_after c e _ m hne hgt
      simp [runTickEvents, this, countCallbacks]
  · intro m hm
    have : tickRuns c e m = false := tickRuns_false_after c e _ m hne hm
    simp [runTickEvents, this]

/-- C1 counterexample: a run (constructed, `start()` called once) in which
no terminal callback is ever invoked.  The bug-compensation branch is
enabled and the oracle returns null for the fallback captures in `start()`,
so every tick takes the "fallback sizes not yet known" guard and
reschedules, forever — even though the clock obeys the contract and passes
the 5000 ms timeout. -/
theorem c1_counterexample : ValidEnv envNoMeasure ∧ NeverFires ctorBug envNoMeasure := by
  refine ⟨validEnv_envNoMeasure, ?_⟩
  intro n
  have hall : ∀ m, tickEvents ctorBug envNoMeasure m = asyncCheck_ := fun m =>
    check_waits_without_fallback _ _ _ _ rfl rfl
  have hrun : tickRuns ctorBug envNoMeasure n = true :=
    tickRuns_of_async _ _ _ fun m _ => hall m
  simp [runTickEvents, hrun, hall n, countCallbacks_asyncCheck]

/-- C1 witness: the amended theorem applied to a concrete
bug-compensation-disabled run. -/
theorem c1_exactly_one_terminal_callback_witness :
    ValidEnv envNoMeasure ∧
    ∃ n, countCallbacks (runTickEvents ctorNoBug envNoMeasure n) = 1 ∧
      (∀ m, m ≠ n → countCallbacks (runTickEvents ctorNoBug envNoMeasure m) = 0) ∧
      (∀ m, n < m → runTickEvents ctorNoBug envNoMeasure m = []) :=
  ⟨validEnv_envNoMeasure,
    c1_exactly_one_terminal_callback ctorNoBug envNoMeasure validEnv_envNoMeasure
      (by simp [ctorNoBug])⟩

/-! ## C2 -/

/-- An absent measurement compares unequal to everything. -/
theorem sizeEquals_none_left (b : Option Size) : sizeEquals_ none b = false := by
  cases b <;> rfl

/-- Nothing compares equal to an absent measurement. -/
theorem sizeEquals_none_right (a : Option Size) : sizeEquals_ a none = false := by
  cases a <;> rfl

/-- C2: with bug compensation disabled, a check tick that executes decides
in this fixed order: a timed-out clock finishes inactive; otherwise, both
sizes equal to their original baselines reschedules with a 25 ms delay;
otherwise it finishes active on that very tick, and no later tick emits
anything (no extra delay before the active callback). -/
theorem c2_nobug_tick_decision (c : Ctor) (e : Env) (n : Nat)
    (hbug : c.hasWebkitFallbackBug = false)
    (hrun : tickRuns c e n = true) :
    (hasTimedOut_ (e.time n) e.startTime = true →
      runTickEvents c e n = finish_ (start c e) false) ∧
    (hasTimedOut_ (e.time n) e.startTime = false →
      (sizeEquals_ (e.sizeA n) c.originalSizeA &&
        sizeEquals_ (e.sizeB n) c.originalSizeB) = true →
      runTickEvents c e n = [Event.schedule 25]) ∧
    (hasTimedOut_ (e.time n) e.startTime = false →
      (sizeEquals_ (e.sizeA n) c.originalSizeA &&
        sizeEquals_ (e.sizeB n) c.originalSizeB) = false →
      runTickEvents c e n = finish_ (start c e) true ∧
        ∀ m, n < m → runTickEvents c e m = []) := by
  refine ⟨?_, ?_, ?_⟩
  · intro ht
    simp [runTickEvents, hrun, tickEvents, check_, start, hbug, ht]
  · intro ht heq
    simp [runTickEvents, hrun, tickEvents, check_, start, hbug, ht, heq, asyncCheck_]
  · intro ht heq
    have htick : tickEvents c e n = finish_ (start c e) true := by
      unfold tickEvents check_
      simp [start, hbug, ht, heq]
    refine ⟨by simp [runTickEvents, hrun, htick], fun m hm => ?_⟩
    have hstop : tickRuns c e m = false :=
      tickRuns_false_after c e n m (by rw [htick]; exact finish_ne_asyncCheck _ _) hm
    simp [runTickEvents, hstop]

/-- C2 witness: the concrete no-bug run whose first tick (not timed out,
measurements diverged from baseline) fires the active callback at once. -/
theorem c2_nobug_tick_decision_witness :
    runTickEvents ctorNoBug envNoMeasure 0 = finish_ (start ctorNoBug envNoMeasure) true ∧
      ∀ m, 0 < m → runTickEvents ctorNoBug envNoMeasure m = [] :=
  (c2_nobug_tick_decision ctorNoBug envNoMeasure 0 rfl rfl).2.2 (by decide) (by decide)

/-! ## C3 -/

/-- C3: with the bug flag set, both fallback snapshots recorded and the
timeout reached, a check tick finishes active exactly when both sizes equal
the fallback snapshots, and inactive otherwise. -/
theorem c3_bug_timeout_decision (r : Runner) (sA sB : Option Size) (t : Int)
    (hbug : r.hasWebkitFallbackBug_ = true)
    (hA : r.webkitFallbackSizeA_.isSome = true)
    (hB : r.webkitFallbackSizeB_.isSome = true)
    (ht : hasTimedOut_ t r.started_ = true) :
    check_ r sA sB t =
      if sizeEquals_ sA r.webkitFallbackSizeA_ && sizeEquals_ sB r.webkitFallbackSizeB_ then
        finish_ r true
      else
        finish_ r false := by
  unfold check_
  simp [hbug, hA, hB, ht]

/-- A concrete runner with the bug flag set, both fallback snapshots
recorded, and baselines distinct from the snapshots. -/
def runnerBug : Runner :=
  { fontFamily_ := "My Family"
    fontDescription_ := "n4"
    hasWebkitFallbackBug_ := true
    originalSizeA_ := some ⟨10, 5⟩
    originalSizeB_ := some ⟨20, 8⟩
    webkitFallbackSizeA_ := some ⟨12, 5⟩
    webkitFallbackSizeB_ := some ⟨22, 8⟩
    started_ := 0 }

/-- C3 witness: at 6000 ms elapsed with sizes still equal to the fallback
snapshots, the concrete runner finishes active. -/
theorem c3_bug_timeout_decision_witness :
    check_ runnerBug (some ⟨12, 5⟩) (some ⟨22, 8⟩) 6000 =
      if sizeEquals_ (some ⟨12, 5⟩) runnerBug.webkitFallbackSizeA_ &&
          sizeEquals_ (some ⟨22, 8⟩) runnerBug.webkitFallbackSizeB_ then
        finish_ runnerBug true
      else
        finish_ runnerBug false :=
  c3_bug_timeout_decision runnerBug (some ⟨12, 5⟩) (some ⟨22, 8⟩) 6000 rfl rfl rfl rfl

/-! ## C4 -/

/-- C4: with the bug flag set, both fallback snapshots recorded and the
timeout not reached, a check tick reschedules while both sizes still equal
the fallback snapshots; once they diverge it finishes inactive exactly when
both sizes equal the original baselines, and active in every other case. -/
theorem c4_bug_pretimeout_decision (r : Runner) (sA sB : Option Size) (t : Int)
    (hbug : r.hasWebkitFallbackBug_ = true)
    (hA : r.webkitFallbackSizeA_.isSome = true)
    (hB : r.webkitFallbackSizeB_.isSome = true)
    (ht : hasTimedOut_ t r.started_ = false) :
    check_ r sA sB t =
      if sizeEquals_ sA r.webkitFallbackSizeA_ && sizeEquals_ sB r.webkitFallbackSizeB_ then
        asyncCheck_
      else if sizeEquals_ sA r.originalSizeA_ && sizeEquals_ sB r.originalSizeB_ then
        finish_ r false
      else
        finish_ r true := by
  unfold check_
  simp [hbug, hA, hB, ht]

/-- C4 witness: before the timeout, sizes reverted to the original
baselines, so the concrete runner finishes inactive. -/
theorem c4_bug_pretimeout_decision_witness :
    check_ runnerBug (some ⟨10, 5⟩) (some ⟨20, 8⟩) 100 =
      if sizeEquals_ (some ⟨10, 5⟩) runnerBug.webkitFallbackSizeA_ &&
          sizeEquals_ (some ⟨20, 8⟩) runnerBug.webkitFallbackSizeB_ then
        asyncCheck_
      else if sizeEquals_ (some ⟨10, 5⟩) runnerBug.originalSizeA_ &&
          sizeEquals_ (some ⟨20, 8⟩) runnerBug.originalSizeB_ then
        finish_ runnerBug false
      else
        finish_ runnerBug true :=
  c4_bug_pretimeout_decision runnerBug (some ⟨10, 5⟩) (some ⟨20, 8⟩) 100 rfl rfl rfl rfl

/-! ## C5 -/

/-- C5 counterexample: with bug compensation disabled and the oracle
returning null on every `getSize` from `start()` onward, the very first
check tick — well before the 5000 ms timeout — fires the ACTIVE callback:
the absent measurement fails the baseline-equality test and is read as "a
geometry changed", not as "unchanged/unknown, keep waiting". -/
theorem c5_counterexample :
    hasTimedOut_ (envNoMeasure.time 0) envNoMeasure.startTime = false ∧
    runTickEvents ctorNoBug envNoMeasure 0 =
      [Event.removeRulerA, Event.removeRulerB,
       Event.callback true "My Family" "n4"] := by
  decide

/-- C5 (amended): if the oracle returns null on every `getSize` call from
`start()` onward, then with bug compensation disabled the first check tick
finishes ACTIVE immediately (absence never equals the baseline, so it takes
the "changed" branch), while with bug compensation enabled the fallback
snapshots are null and every tick reschedules: the run never resolves at
all. -/
theorem c5_absent_measurements (c : Ctor) (e : Env)
    (habsA : ∀ n, e.sizeA n = none)
    (hfbA : e.fallbackMeasureA = none) :
    (c.hasWebkitFallbackBug = false →
      hasTimedOut_ (e.time 0) e.startTime = false →
      runTickEvents c e 0 = finish_ (start c e) true) ∧
    (c.hasWebkitFallbackBug = true →
      ∀ n, runTickEvents c e n = asyncCheck_) := by
  constructor
  · intro hb ht
    have hrun0 : tickRuns c e 0 = true := rfl
    simp [runTickEvents, hrun0, tickEvents, check_, start, hb, ht, habsA 0,
      sizeEquals_none_left]
  · intro hb n
    have hall : ∀ m, tickEvents c e m = asyncCheck_ := fun m =>
      check_waits_without_fallback (start c e) (e.sizeA m) (e.sizeB m) (e.time m)
        hb (by simp [start, hb, hfbA])
    have hrun : tickRuns c e n = true := tickRuns_of_async c e n fun m _ => hall m
    simp [runTickEvents, hrun, hall n]

/-- C5 witness: the amended theorem applied to the all-null oracle run. -/
theorem c5_absent_measurements_witness :
    (ctorNoBug.hasWebkitFallbackBug = false →
      hasTimedOut_ (envNoMeasure.time 0) envNoMeasure.startTime = false →
      runTickEvents ctorNoBug envNoMeasure 0 = finish_ (start ctorNoBug envNoMeasure) true) ∧
    (ctorNoBug.hasWebkitFallbackBug = true →
      ∀ n, runTickEvents ctorNoBug envNoMeasure n = asyncCheck_) :=
  c5_absent_measurements ctorNoBug envNoMeasure (fun _ => rfl) rfl

/-! ## C6 -/

/-- C6: `sizeEquals_(a, b)` is true exactly when both operands are present
with equal widths and equal heights; whenever either operand is absent —
including both — it is false. -/
theorem c6_sizeEquals_characterisation (a b : Option Size) :
    (sizeEquals_ a b = true ↔
      ∃ x y, a = some x ∧ b = some y ∧ x.width = y.width ∧ x.height = y.height) ∧
    ((a = none ∨ b = none) → sizeEquals_ a b = false) := by
  cases a <;> cases b <;> simp [sizeEquals_]

/-! ## C7 -/

/-- C7: on every terminal path, whatever the branch and timing, the tick
removes ruler A exactly once, removes ruler B exactly once, and both
removals precede the single callback invocation with
`(fontFamily_, fontDescription_)` — the trace is literally
`[removeRulerA, removeRulerB, callback]`.  A rescheduling tick performs no
removal and no callback. -/
theorem c7_finish_removes_both_rulers (r : Runner) (sA sB : Option Size) (t : Int) :
    (∀ b : Bool, check_ r sA sB t = finish_ r b →
      check_ r sA sB t =
        [Event.removeRulerA, Event.removeRulerB,
         Event.callback b r.fontFamily_ r.fontDescription_] ∧
      countRemoveA (check_ r sA sB t) = 1 ∧ countRemoveB (check_ r sA sB t) = 1 ∧
      countCallbacks (check_ r sA sB t) = 1) ∧
    (check_ r sA sB t = asyncCheck_ →
      countRemoveA (check_ r sA sB t) = 0 ∧ countRemoveB (check_ r sA sB t) = 0 ∧
      countCallbacks (check_ r sA sB t) = 0) := by
  constructor
  · intro b hb
    rw [hb]
    exact ⟨rfl, rfl, rfl, rfl⟩
  · intro ha
    rw [ha]
    exact ⟨rfl, rfl, rfl⟩

/-! ## C8 -/

/-- C8 counterexample: the code strings contain no space after the commas,
so the contract strings of the claim (with spaces) are not the constants of
the code. -/
theorem c8_counterexample :
    ¬(DEFAULT_FONTS_A = "arial, 'URW Gothic L', sans-serif" ∧
      DEFAULT_FONTS_B = "Georgia, 'Century Schoolbook L', serif") := by
  decide

/-- C8 (amended): default fallback stack A is
`"arial,'URW Gothic L',sans-serif"` and stack B is
`"Georgia,'Century Schoolbook L',serif"` (both without spaces after the
commas); the timeout check holds exactly when at least 5000 ms elapsed
since `started_`; and every rescheduled check is requested with a 25 ms
delay. -/
theorem c8_constants :
    DEFAULT_FONTS_A = "arial,'URW Gothic L',sans-serif" ∧
    DEFAULT_FONTS_B = "Georgia,'Century Schoolbook L',serif" ∧
    (∀ now started : Int, hasTimedOut_ now started = true ↔ 5000 ≤ now - started) ∧
    asyncCheck_ = [Event.schedule 25] :=
  ⟨rfl, rfl, fun _ _ => by simp [hasTimedOut_], rfl⟩

/-! ## C9 -/

/-- C9: each `check_` invocation either reschedules — emitting exactly one
scheduler request and no callback — or reaches `finish_`, which emits no
scheduler request at all; and once a tick does anything but reschedule, no
later tick ever executes, so at most one scheduled check is pending at any
instant even though the code keeps no finished flag and cancels nothing. -/
theorem c9_at_most_one_pending_check :
    (∀ (r : Runner) (sA sB : Option Size) (t : Int),
      (check_ r sA sB t = asyncCheck_ ∧ countSchedules (check_ r sA sB t) = 1 ∧
        countCallbacks (check_ r sA sB t) = 0) ∨
      (∃ b, check_ r sA sB t = finish_ r b ∧ countSchedules (check_ r sA sB t) = 0)) ∧
    (∀ (c : Ctor) (e : Env) (n m : Nat), tickEvents c e n ≠ asyncCheck_ → n < m →
      tickRuns c e m = false ∧ runTickEvents c e m = []) := by
  constructor
  · intro r sA sB t
    rcases check_cases r sA sB t with h | h | h
    · exact Or.inl ⟨h, by rw [h]; rfl, by rw [h]; rfl⟩
    · exact Or.inr ⟨true, h, by rw [h]; rfl⟩
    · exact Or.inr ⟨false, h, by rw [h]; rfl⟩
  · intro c e n m h hnm
    have hstop : tickRuns c e m = false := tickRuns_false_after c e n m h hnm
    exact ⟨hstop, by simp [runTickEvents, hstop]⟩

/-! ## C10 -/

/-- C10: `start()` runs the first check synchronously — tick 0 executes
unconditionally — and when that first check takes a terminal branch the
whole callback sequence sits inside the synchronous trace of `start()`,
which then contains no scheduler request at all: the 25 ms delay only ever
precedes checks after the first. -/
theorem c10_start_first_check_synchronous (c : Ctor) (e : Env) (b : Bool)
    (hfin : tickEvents c e 0 = finish_ (start c e) b) :
    startEvents c e =
      [Event.setFontA (c.fontFamily ++ "," ++ DEFAULT_FONTS_A) c.fontDescription,
       Event.setFontB (c.fontFamily ++ "," ++ DEFAULT_FONTS_B) c.fontDescription,
       Event.removeRulerA, Event.removeRulerB,
       Event.callback b c.fontFamily c.fontDescription] ∧
    countSchedules (startEvents c e) = 0 ∧
    tickRuns c e 0 = true := by
  refine ⟨?_, ?_, rfl⟩
  · unfold startEvents
    rw [hfin]
    rfl
  · unfold startEvents
    rw [hfin]
    rfl

/-- C10 witness: the concrete no-bug run whose initial measurements already
diverge from the baselines fires the active callback synchronously inside
`start()`. -/
theorem c10_start_first_check_synchronous_witness :
    startEvents ctorNoBug envNoMeasure =
      [Event.setFontA (ctorNoBug.fontFamily ++ "," ++ DEFAULT_FONTS_A)
         ctorNoBug.fontDescription,
       Event.setFontB (ctorNoBug.fontFamily ++ "," ++ DEFAULT_FONTS_B)
         ctorNoBug.fontDescription,
       Event.removeRulerA, Event.removeRulerB,
       Event.callback true ctorNoBug.fontFamily ctorNoBug.fontDescription] ∧
    countSchedules (startEvents ctorNoBug envNoMeasure) = 0 ∧
    tickRuns ctorNoBug envNoMeasure 0 = true :=
  c10_start_first_check_synchronous ctorNoBug envNoMeasure true (by decide)

end WebFont
